import Mathlib

/-!
# valkeystore: the session store adapter over a Valkey client

A shallow embedding of `valkeystore.go`.  The adapter is pure request
translation, so the development has three layers:

* the part of the `valkey-go` client the adapter calls (`ValkeyMessage`,
  `ValkeyResult` and the accessors `NonValkeyError`, `Error`, `AsBytes`,
  `AsScanEntry`), written after that library's documented behaviour;
* the adapter itself (`New`, `NewWithPrefix`, `FindCtx`, `CommitCtx`,
  `DeleteCtx`, `AllCtx`, `Find`, `Commit`, `Delete`), over an arbitrary client;
* a reference Valkey server (`valkey`), a client whose state is a keyspace
  with a clock, answering GET, SET, EXPIRE, DEL and SCAN as Valkey documents.

Go values: a `string` and a `[]byte` are byte sequences, a nil slice or nil
error is `none`, a panic is `Outcome.panic`, `time.Time` is a number of
nanoseconds, a `float64` is the exact number it stands for.  The adapter reads
its own clock (`now` in `CommitCtx`); the store reads the clock in its state.
-/

namespace Valkeystore

/-! ## Go values -/

/-- One byte. -/
abbrev Byte := Fin 256

/-- Go `string`: an immutable sequence of bytes, not necessarily UTF-8. -/
abbrev GoString := List Byte

/-- Contents of a Go `[]byte`. -/
abbrev Bytes := List Byte

/-- Byte sequence of an ASCII literal, for writing keys and payloads. -/
def ascii (s : String) : GoString :=
  s.toList.map fun c => Fin.ofNat c.toNat

/-- Instant (`time.Time`) in nanoseconds since the epoch; also `time.Duration`. -/
abbrev Time := Int

/-- Result of a Go call that may panic instead of returning. -/
inductive Outcome (α : Type) where
  | ret (a : α)
  | panic (msg : String)
  deriving DecidableEq, Repr

/-- Go `error` values the adapter can see. -/
inductive GoError where
  /-- Failure below the protocol: network, timeout, closed client. -/
  | nonValkey (msg : String)
  /-- Client's `valkey.Nil`: the reply was a null. -/
  | valkeyNil
  /-- Client's `*ValkeyError` carrying the text of an error reply. -/
  | valkeyErr (msg : GoString)
  /-- Parse failure of `strconv.ParseUint`: `true` for out of range. -/
  | numError (range : Bool)
  /-- Client's parse error for a reply of the wrong type. -/
  | parse (msg : String)
  deriving DecidableEq, Repr

/-! ## The client library

The adapter imports `github.com/valkey-io/valkey-go`; the library is not part
of the repository.  What follows is the part of it the adapter calls, after the
behaviour the library documents for these accessors.  On a reply of the wrong
type the accessors return a parse error, as the current releases of the
library do. -/

/-- Reply of the store as the client decodes it (the `typ` of a
`ValkeyMessage`): null, string, error reply, integer, array. -/
inductive ValkeyMessage where
  | null
  | str (s : GoString)
  | err (s : GoString)
  | int (i : Int)
  | array (values : List ValkeyMessage)

/-- Client's `ValkeyResult`: a transport error or a decoded message. -/
structure ValkeyResult where
  err : Option GoError
  val : ValkeyMessage

/-- Text `"ERR "` that `ValkeyMessage.Error` trims from an error reply. -/
def errPrefix : GoString := [69, 82, 82, 32]

/-- Go `strings.TrimPrefix`. -/
def trimPrefix (s p : GoString) : GoString :=
  if p.isPrefixOf s then s.drop p.length else s

/-- Method `ValkeyMessage.Error`: `Nil` for a null, a `ValkeyError` for an
error reply, otherwise nil. -/
def ValkeyMessage.Error : ValkeyMessage → Option GoError
  | .null => some .valkeyNil
  | .err s => some (.valkeyErr (trimPrefix s errPrefix))
  | _ => none

/-- Field `string` of a `ValkeyMessage`: the text of a string or of an error
reply, empty for the other types. -/
def ValkeyMessage.string : ValkeyMessage → GoString
  | .str s => s
  | .err s => s
  | _ => []

/-- Method `ValkeyMessage.ToString`: the string of a string reply; a parse
error on an integer or an array; on a null or an error reply the text and
`Error()`. -/
def ValkeyMessage.ToString : ValkeyMessage → GoString × Option GoError
  | .str s => (s, none)
  | .int _ => ([], some (.parse "valkey message type int64 is not a string"))
  | .array _ => ([], some (.parse "valkey message type array is not a string"))
  | m => (m.string, m.Error)

/-- Method `ValkeyMessage.AsBytes`: on an error of `ToString` it returns
`nil, err`; otherwise the bytes of the string (for the empty string a slice of
length zero). -/
def ValkeyMessage.AsBytes (m : ValkeyMessage) : Option Bytes × Option GoError :=
  match m.ToString with
  | (_, some e) => (none, some e)
  | (s, none) => (some s, none)

/-- Method `ValkeyResult.NonValkeyError`. -/
def ValkeyResult.NonValkeyError (r : ValkeyResult) : Option GoError := r.err

/-- Method `ValkeyResult.Error`: the transport error, else the message's. -/
def ValkeyResult.Error (r : ValkeyResult) : Option GoError :=
  match r.err with
  | some e => some e
  | none => r.val.Error

/-- Method `ValkeyResult.AsBytes`. -/
def ValkeyResult.AsBytes (r : ValkeyResult) : Option Bytes × Option GoError :=
  match r.err with
  | some e => (none, some e)
  | none => r.val.AsBytes

/-- Go `strconv.ParseUint(s, 10, 64)` after the empty-string check: the loop
over the bytes with the running value `n`.  A byte that is no decimal digit is
a syntax error with value 0; passing `2^64 - 1` is a range error with value
`2^64 - 1`. -/
def parseUintLoop : GoString → Nat → Nat × Option GoError
  | [], n => (n, none)
  | c :: cs, n =>
    if 48 ≤ c.val ∧ c.val ≤ 57 then
      if n ≥ (2 ^ 64 - 1) / 10 + 1 then (2 ^ 64 - 1, some (.numError true))
      else if n * 10 + (c.val - 48) > 2 ^ 64 - 1 then (2 ^ 64 - 1, some (.numError true))
      else parseUintLoop cs (n * 10 + (c.val - 48))
    else (0, some (.numError false))

/-- Go `strconv.ParseUint(s, 10, 64)`. -/
def ParseUint (s : GoString) : Nat × Option GoError :=
  if s.isEmpty then (0, some (.numError false)) else parseUintLoop s 0

/-- Method `ValkeyMessage.AsUint64`: an integer reply converted to `uint64`,
otherwise the string parsed as a decimal number. -/
def ValkeyMessage.AsUint64 : ValkeyMessage → Nat × Option GoError
  | .int i => ((i % 2 ^ 64).toNat, none)
  | m =>
    match m.ToString with
    | (_, some e) => (0, some e)
    | (s, none) => ParseUint s

/-- Method `ValkeyMessage.ToArray`: the elements of an array; the error of a
null or an error reply; a parse error on a string or an integer. -/
def ValkeyMessage.ToArray : ValkeyMessage → List ValkeyMessage × Option GoError
  | .array values => (values, none)
  | .null => ([], some .valkeyNil)
  | .err s => ([], some (.valkeyErr (trimPrefix s errPrefix)))
  | .str _ => ([], some (.parse "valkey message type string is not a array"))
  | .int _ => ([], some (.parse "valkey message type int64 is not a array"))

/-- Test of `AsStrSlice` on one element: its text is not empty or it is a
string. -/
def ValkeyMessage.keptByStrSlice : ValkeyMessage → Bool
  | .str _ => true
  | m => !m.string.isEmpty

/-- Method `ValkeyMessage.AsStrSlice`: the texts of the elements of an array
that are strings or have a text. -/
def ValkeyMessage.AsStrSlice (m : ValkeyMessage) : List GoString × Option GoError :=
  match m.ToArray with
  | (_, some e) => ([], some e)
  | (values, none) =>
    ((values.filter ValkeyMessage.keptByStrSlice).map ValkeyMessage.string, none)

/-- Client's `ScanEntry`: the keys of one SCAN round and the next cursor
(`uint64`).  A nil `Elements` is the empty list. -/
structure ScanEntry where
  Elements : List GoString
  Cursor : Nat
  deriving DecidableEq, Repr

/-- Method `ValkeyMessage.AsScanEntry`: an array of at least two elements is
read as cursor and keys, the keys only when the cursor parsed; a shorter array
is a parse error. -/
def ValkeyMessage.AsScanEntry (m : ValkeyMessage) : ScanEntry × Option GoError :=
  match m.ToArray with
  | (_, some e) => (⟨[], 0⟩, some e)
  | (m0 :: m1 :: _, none) =>
    match m0.AsUint64 with
    | (cursor, some e) => (⟨[], cursor⟩, some e)
    | (cursor, none) =>
      match m1.AsStrSlice with
      | (elements, e) => (⟨elements, cursor⟩, e)
  | (_, none) =>
    (⟨[], 0⟩, some (.parse
      "valkey message type array is not a scan response or its length is not at least 2"))

/-- Method `ValkeyResult.AsScanEntry`. -/
def ValkeyResult.AsScanEntry (r : ValkeyResult) : ScanEntry × Option GoError :=
  match r.err with
  | some e => (⟨[], 0⟩, some e)
  | none => r.val.AsScanEntry

/-- Commands the adapter builds with `client.B()`. -/
inductive Cmd where
  | get (key : GoString)
  | set (key : GoString) (value : GoString)
  | expire (key : GoString) (seconds : Int)
  | del (key : GoString)
  | scan (cursor : Nat) (pattern : GoString) (count : Int)
  deriving DecidableEq, Repr

/-- The `valkey.Client` the adapter is given, over a state `σ` of whatever is
behind it: `Do` answers one command, `DoMulti` a batch. -/
structure Client (σ : Type) where
  Do : Cmd → σ → ValkeyResult × σ
  DoMulti : List Cmd → σ → List ValkeyResult × σ

/-! ## The adapter -/

/-- Type `ValkeyStore` of the source: the client and the key namespace (field
`prefix` of the source). -/
structure ValkeyStore (σ : Type) where
  client : Client σ
  pfx : GoString

/-- Function `NewWithPrefix`. -/
def NewWithPrefix {σ : Type} (client : Client σ) (pfx : GoString) : ValkeyStore σ :=
  { client := client, pfx := pfx }

/-- Function `New`: the namespace is `"scs:session:"`. -/
def New {σ : Type} (client : Client σ) : ValkeyStore σ :=
  NewWithPrefix client (ascii "scs:session:")

/-- What `FindCtx` returns: `b`, `exists`, `err`. -/
abbrev FindResult := Option Bytes × Bool × Option GoError

/-- Method `FindCtx`: GET of the namespaced key, then the three returns of the
source in their order. -/
def FindCtx {σ : Type} (v : ValkeyStore σ) (token : GoString) (st : σ) :
    Outcome FindResult × σ :=
  let cmd := Cmd.get (v.pfx ++ token)
  let (result, st1) := v.client.Do cmd st
  match result.NonValkeyError with
  | some e => (.ret (none, false, some e), st1)
  | none =>
    match result.AsBytes with
    | (b, some e) =>
      if b.isNone then (.ret (none, false, none), st1)
      else (.ret (none, false, some e), st1)
    | (b, none) => (.ret (b, true, none), st1)

/-- Largest `time.Duration`, `1<<63 - 1`. -/
def maxDuration : Int := 9223372036854775807

/-- Smallest `time.Duration`, `-1 << 63`. -/
def minDuration : Int := -9223372036854775808

/-- Go `time.Until(expiry)` with the clock reading `now`: the difference,
saturated to the range of `time.Duration`. -/
def timeUntil (now expiry : Int) : Int :=
  if expiry - now > maxDuration then maxDuration
  else if expiry - now < minDuration then minDuration
  else expiry - now

/-- Number of binary digits of `n`: halving until nothing is left, counted in
`acc`; `fuel` bounds the halvings. -/
def bitLenAux : Nat → Nat → Nat → Nat
  | 0, _, acc => acc
  | fuel + 1, n, acc => if n = 0 then acc else bitLenAux fuel (n / 2) (acc + 1)

/-- Number of binary digits of `n`. -/
def bitLen (n : Nat) : Nat := bitLenAux n n 0

/-- Go `float64` that is finite and not negative, as the number
`num / 2 ^ shift`. -/
structure Float64 where
  num : Nat
  shift : Nat
  deriving DecidableEq, Repr

/-- Quotient `a / b` rounded to the nearest integer, a tie to the even one. -/
def roundHalfEven (a b : Nat) : Nat :=
  if 2 * (a % b) < b then a / b
  else if 2 * (a % b) > b then a / b + 1
  else if (a / b) % 2 = 0 then a / b else a / b + 1

/-- Rounding of IEEE 754 binary64, to nearest and ties to even, of the number
`n / d` (below the overflow threshold): 53 significant bits `m` at the binary
exponent `e`, which is not below -1074. -/
def roundFloat64 (n d : Nat) : Float64 :=
  if n = 0 then ⟨0, 0⟩
  else
    let e0 : Int := (bitLen n : Int) - (bitLen d : Int) - 53
    let e1 : Int :=
      if n * 2 ^ (-e0).toNat ≥ 2 ^ 53 * (d * 2 ^ e0.toNat) then e0 + 1 else e0
    let e : Int := if e1 < -1074 then -1074 else e1
    let m := roundHalfEven (n * 2 ^ (-e).toNat) (d * 2 ^ e.toNat)
    ⟨m * 2 ^ e.toNat, (-e).toNat⟩

/-- Go `float64(n)` of an integer that is not negative. -/
def Float64.ofNat (n : Nat) : Float64 := roundFloat64 n 1

/-- Go `x / c` in `float64`, for a constant `c` that is an exact integer. -/
def Float64.div (x : Float64) (c : Nat) : Float64 :=
  roundFloat64 x.num (2 ^ x.shift * c)

/-- Go `x + y` in `float64`. -/
def Float64.add (x y : Float64) : Float64 :=
  roundFloat64 (x.num * 2 ^ y.shift + y.num * 2 ^ x.shift) (2 ^ (x.shift + y.shift))

/-- Go `int64(x)`: the integer part. -/
def Float64.toInt64 (x : Float64) : Int := (x.num / 2 ^ x.shift : Nat)

/-- Method `Duration.Seconds` of Go on a duration of `d` nanoseconds, `d` not
negative: `float64(sec) + float64(nsec)/1e9` with `sec := d / Second` and
`nsec := d % Second`. -/
def durationSeconds (d : Nat) : Float64 :=
  (Float64.ofNat (d / 1000000000)).add ((Float64.ofNat (d % 1000000000)).div 1000000000)

/-- Expression `int64(time.Until(expiry).Seconds())` of `CommitCtx`: the
seconds of the duration as a `float64`, then its integer part.  A negative
duration gives the negated result of its absolute value: Go's `/` and `%`
round toward zero, the `float64` operations are symmetric in the sign, and
`int64()` rounds toward zero. -/
def untilSeconds (now expiry : Int) : Int :=
  if 0 ≤ timeUntil now expiry then (durationSeconds (timeUntil now expiry).toNat).toInt64
  else -(durationSeconds (-timeUntil now expiry).toNat).toInt64

/-- Loop of `CommitCtx` over the responses: the first `Error()` that is not
nil. -/
def firstError : List ValkeyResult → Option GoError
  | [] => none
  | resp :: rest =>
    match resp.Error with
    | some e => some e
    | none => firstError rest

/-- Method `CommitCtx`; `now` is what `time.Now()` reads inside `time.Until`. -/
def CommitCtx {σ : Type} (v : ValkeyStore σ) (now : Time) (token : GoString) (b : Bytes)
    (expiry : Time) (st : σ) : Option GoError × σ :=
  let cmds := [Cmd.set (v.pfx ++ token) b,
               Cmd.expire (v.pfx ++ token) (untilSeconds now expiry)]
  let (resps, st1) := v.client.DoMulti cmds st
  (firstError resps, st1)

/-- Method `DeleteCtx`. -/
def DeleteCtx {σ : Type} (v : ValkeyStore σ) (token : GoString) (st : σ) :
    Option GoError × σ :=
  let cmd := Cmd.del (v.pfx ++ token)
  let (resp, st1) := v.client.Do cmd st
  (resp.Error, st1)

/-- Go `map[string][]byte` as the list of its entries, one per key. -/
abbrev Sessions := List (GoString × Option Bytes)

instance : DecidableEq Sessions :=
  inferInstanceAs (DecidableEq (List (GoString × Option Bytes)))

/-- Go `sessions[token] = data`. -/
def Sessions.set (m : Sessions) (token : GoString) (data : Option Bytes) : Sessions :=
  (token, data) :: m.filter fun kv => kv.1 ≠ token

/-- Inner loop of `AllCtx` over the keys of one batch: the token is
`key[len(v.prefix):]`, which panics on a key shorter than the namespace. -/
def allBatch {σ : Type} (v : ValkeyStore σ) :
    List GoString → Sessions → σ → Outcome (Except GoError Sessions) × σ
  | [], sessions, st => (.ret (.ok sessions), st)
  | key :: rest, sessions, st =>
    if key.length < v.pfx.length then (.panic "slice bounds out of range", st)
    else
      let token := key.drop v.pfx.length
      match FindCtx v token st with
      | (.panic msg, st1) => (.panic msg, st1)
      | (.ret (_, _, some e), st1) => (.ret (.error e), st1)
      | (.ret (data, found, none), st1) =>
        allBatch v rest (if found then sessions.set token data else sessions) st1

/-- What `AllCtx` returns: the map (nil as `none`) and the error. -/
abbrev AllResult := Option Sessions × Option GoError

instance : DecidableEq AllResult :=
  inferInstanceAs (DecidableEq (Option Sessions × Option GoError))

/-- Outer loop of `AllCtx` from the cursor `cursor`, at most `fuel` rounds;
`none` when the rounds run out.  The source names the error of `AsScanEntry`
`ok` and returns the map when it is nil. -/
def allLoop {σ : Type} (v : ValkeyStore σ) :
    Nat → Nat → Sessions → σ → Option (Outcome AllResult × σ)
  | 0, _, _, _ => none
  | fuel + 1, cursor, sessions, st =>
    let cmd := Cmd.scan cursor (v.pfx ++ ascii "*") 100
    let (resp, st1) := v.client.Do cmd st
    match resp.Error with
    | some e => some (.ret (none, some e), st1)
    | none =>
      let (scanResult, ok) := resp.AsScanEntry
      if ok.isNone then some (.ret (some sessions, none), st1)
      else
        match allBatch v scanResult.Elements sessions st1 with
        | (.panic msg, st2) => some (.panic msg, st2)
        | (.ret (.error e), st2) => some (.ret (none, some e), st2)
        | (.ret (.ok sessions1), st2) =>
          if scanResult.Cursor = 0 then some (.ret (some sessions1, none), st2)
          else allLoop v fuel scanResult.Cursor sessions1 st2

/-- Method `AllCtx`, with a bound on the number of SCAN rounds. -/
def AllCtx {σ : Type} (v : ValkeyStore σ) (fuel : Nat) (st : σ) :
    Option (Outcome AllResult × σ) :=
  allLoop v fuel 0 [] st

/-- Method `Find` without a context: `panic("missing context arg")`. -/
def Find {σ : Type} (_v : ValkeyStore σ) (_token : GoString) (st : σ) :
    Outcome FindResult × σ :=
  (.panic "missing context arg", st)

/-- Method `Commit` without a context: `panic("missing context arg")`. -/
def Commit {σ : Type} (_v : ValkeyStore σ) (_token : GoString) (_b : Bytes)
    (_expiry : Time) (st : σ) : Outcome (Option GoError) × σ :=
  (.panic "missing context arg", st)

/-- Method `Delete` without a context: `panic("missing context arg")`. -/
def Delete {σ : Type} (_v : ValkeyStore σ) (_token : GoString) (st : σ) :
    Outcome (Option GoError) × σ :=
  (.panic "missing context arg", st)

/-! ## A reference Valkey server

The store behind the client is not part of the repository either.  This is a
model of it as far as the five commands go, after the Valkey command
reference.  It answers every request (no transport error), one request at a
time, and reads one clock, in the nanoseconds of `time.Time`. -/

/-- Value under a key: a string, or a value of another type (list, hash,
set, ...), whose content plays no role here. -/
inductive Value where
  | string (b : GoString)
  | other
  deriving DecidableEq, Repr

/-- Keyspace entry: the value and the instant it expires at, if any. -/
structure Entry where
  value : Value
  expireAt : Option Time
  deriving DecidableEq, Repr

/-- State of the server: the keyspace, one entry per key, and the clock. -/
structure Store where
  keys : List (GoString × Entry)
  clock : Time
  deriving DecidableEq, Repr

/-- Entry stored under `key`, expired or not. -/
def findEntry : List (GoString × Entry) → GoString → Option Entry
  | [], _ => none
  | (k, e) :: rest, key => if k = key then some e else findEntry rest key

/-- Keyspace without `key`. -/
def removeKey (keys : List (GoString × Entry)) (key : GoString) : List (GoString × Entry) :=
  keys.filter fun kv => kv.1 ≠ key

/-- Keyspace with `key` bound to `e`. -/
def putKey (keys : List (GoString × Entry)) (key : GoString) (e : Entry) :
    List (GoString × Entry) :=
  (key, e) :: removeKey keys key

/-- An entry is expired once the clock is past its expiry instant. -/
def Entry.expired (e : Entry) (clock : Time) : Bool :=
  match e.expireAt with
  | none => false
  | some t => decide (clock > t)

/-- Entry the server sees under `key`: stored and not expired. -/
def Store.live (st : Store) (key : GoString) : Option Entry :=
  match findEntry st.keys key with
  | none => none
  | some e => if e.expired st.clock then none else some e

/-- Store at a later (or any other) reading of its clock. -/
def Store.atClock (st : Store) (clock : Time) : Store :=
  { st with clock := clock }

/-- Glob match of MATCH for the patterns without a bracket class: `*` is any
run of bytes, `?` any one byte, a backslash makes the next byte literal, any
other byte is itself. -/
def stringmatch : GoString → GoString → Bool
  | [], s => s.isEmpty
  | c :: p, s =>
    if c.val = 42 then s.tails.any fun t => stringmatch p t
    else if c.val = 63 then
      match s with
      | [] => false
      | _ :: t => stringmatch p t
    else if c.val = 92 then
      match p, s with
      | [], x :: t => x = c && t.isEmpty
      | d :: q, x :: t => x = d && stringmatch q t
      | _, [] => false
    else
      match s with
      | [] => false
      | x :: t => x = c && stringmatch p t

/-- Decimal text of a number, as SCAN sends its cursor. -/
def decimal (n : Nat) : GoString :=
  (Nat.toDigits 10 n).map fun c => Fin.ofNat c.toNat

/-- Error reply of a command used on a key of another type. -/
def wrongType : GoString :=
  ascii "WRONGTYPE Operation against a key holding the wrong kind of value"

/-- One command on the server.

* GET: the string under a live key, null when there is none, an error reply on
  a value of another type.
* SET: binds the key to the string and drops its expiry; replies `OK`.
* EXPIRE: 0 when there is no live key; otherwise 1, and the key expires
  `seconds` from now, or is deleted at once when `seconds` is not positive.
* DEL: removes the key; replies how many live keys went.
* SCAN: the live keys matching the pattern among the next `count` entries
  after position `cursor`, and the position to go on from, 0 at the end. -/
def serve (cmd : Cmd) (st : Store) : ValkeyMessage × Store :=
  match cmd with
  | .get key =>
    match st.live key with
    | none => (.null, st)
    | some e =>
      match e.value with
      | .string b => (.str b, st)
      | .other => (.err wrongType, st)
  | .set key value =>
    (.str (ascii "OK"),
      { st with keys := putKey st.keys key { value := .string value, expireAt := none } })
  | .expire key seconds =>
    match st.live key with
    | none => (.int 0, st)
    | some e =>
      if seconds ≤ 0 then (.int 1, { st with keys := removeKey st.keys key })
      else
        let e1 : Entry := { e with expireAt := some (st.clock + seconds * 1000000000) }
        (.int 1, { st with keys := putKey st.keys key e1 })
  | .del key =>
    match st.live key with
    | none => (.int 0, { st with keys := removeKey st.keys key })
    | some _ => (.int 1, { st with keys := removeKey st.keys key })
  | .scan cursor pattern count =>
    if count < 1 then (.err (ascii "ERR syntax error"), st)
    else
      let page := (st.keys.drop cursor).take count.toNat
      let found := page.filter fun kv =>
        !(kv.2.expired st.clock) && stringmatch pattern kv.1
      let next := if cursor + count.toNat < st.keys.length then cursor + count.toNat else 0
      (.array [.str (decimal next), .array (found.map fun kv => .str kv.1)], st)

/-- Batch of commands on the server, in order. -/
def serveAll : List Cmd → Store → List ValkeyResult × Store
  | [], st => ([], st)
  | cmd :: rest, st =>
    let (m, st1) := serve cmd st
    let (rs, st2) := serveAll rest st1
    ({ err := none, val := m } :: rs, st2)

/-- Client connected to the reference server. -/
def valkey : Client Store where
  Do cmd st := let (m, st1) := serve cmd st; ({ err := none, val := m }, st1)
  DoMulti := serveAll

/-- Empty store with the clock at `clock`, as after FLUSHDB. -/
def emptyStore (clock : Time) : Store := { keys := [], clock := clock }

/-! ## Test data -/

/-- Token of the tests of the source. -/
def sessionToken : GoString := ascii "session_token"

/-- Payload of the tests of the source. -/
def encodedData : Bytes := ascii "encoded_data"

/-- Store of `TestFind`: flushed, then `SET scs:session:session_token
encoded_data` sent by the client itself. -/
def testFindStore : Store :=
  (serve (.set (ascii "scs:session:session_token") encodedData) (emptyStore 0)).2

/-- Store whose key `scs:session:session_token` holds a value that is not a
string, as after `LPUSH scs:session:session_token x`. -/
def wrongTypeStore : Store :=
  { keys := [(ascii "scs:session:session_token", { value := .other, expireAt := none })],
    clock := 0 }

/-! ## Keyspace lemmas -/

/-- Removing a key leaves no entry under it. -/
theorem findEntry_removeKey (keys : List (GoString × Entry)) (key : GoString) :
    findEntry (removeKey keys key) key = none := by
  induction keys with
  | nil => rfl
  | cons kv rest ih =>
    obtain ⟨k, e⟩ := kv
    by_cases hk : k = key
    · simpa [removeKey, List.filter_cons, hk] using ih
    · simpa [removeKey, List.filter_cons, hk, findEntry] using ih

/-- Binding a key leaves that entry under it. -/
theorem findEntry_putKey (keys : List (GoString × Entry)) (key : GoString) (e : Entry) :
    findEntry (putKey keys key e) key = some e := by
  simp [putKey, findEntry]

/-- After SET the key is live, holds the string and has no expiry. -/
theorem live_after_set (st : Store) (key value : GoString) :
    (serve (.set key value) st).2.live key =
      some { value := .string value, expireAt := none } := by
  simp [serve, Store.live, findEntry_putKey, Entry.expired]

/-! ## The adapter on the reference server -/

/-- On the reference server `FindCtx` returns the live string under the
namespaced key, and nothing for a missing key or a value of another type; the
store is left as it was. -/
theorem FindCtx_valkey (pfx token : GoString) (st : Store) :
    FindCtx (NewWithPrefix valkey pfx) token st =
      (.ret (match st.live (pfx ++ token) with
        | none => (none, false, none)
        | some e =>
          match e.value with
          | .string b => (some b, true, none)
          | .other => (none, false, none)), st) := by
  unfold FindCtx
  simp only [NewWithPrefix, valkey, serve]
  cases h : st.live (pfx ++ token) with
  | none => rfl
  | some e =>
    cases hv : e.value with
    | string b =>
      simp [hv, ValkeyResult.NonValkeyError, ValkeyResult.AsBytes, ValkeyMessage.AsBytes,
        ValkeyMessage.ToString]
    | other =>
      simp [hv, ValkeyResult.NonValkeyError, ValkeyResult.AsBytes, ValkeyMessage.AsBytes,
        ValkeyMessage.ToString, ValkeyMessage.Error, ValkeyMessage.string]

/-- On the reference server `CommitCtx` returns nil, leaves the clock, and
leaves under the namespaced key either nothing (a TTL that is not positive) or
the payload expiring the TTL after the clock. -/
theorem CommitCtx_valkey (pfx token : GoString) (b : Bytes) (now expiry : Time) (st : Store) :
    (CommitCtx (NewWithPrefix valkey pfx) now token b expiry st).1 = none ∧
    (CommitCtx (NewWithPrefix valkey pfx) now token b expiry st).2.clock = st.clock ∧
    findEntry (CommitCtx (NewWithPrefix valkey pfx) now token b expiry st).2.keys
        (pfx ++ token) =
      if untilSeconds now expiry ≤ 0 then none
      else some { value := .string b,
                  expireAt := some (st.clock + untilSeconds now expiry * 1000000000) } := by
  have hlive := live_after_set st (pfx ++ token) b
  simp only [CommitCtx, NewWithPrefix, valkey, serveAll]
  generalize hs : serve (Cmd.set (pfx ++ token) b) st = s1 at hlive
  have hclock : s1.2.clock = st.clock := by rw [← hs]; simp [serve]
  have hmsg : s1.1 = .str (ascii "OK") := by rw [← hs]; simp [serve]
  by_cases hsec : untilSeconds now expiry ≤ 0
  · simp [serve, hlive, hsec, hclock, hmsg, firstError, ValkeyResult.Error, ValkeyMessage.Error,
      findEntry_removeKey]
  · simp [serve, hlive, hsec, hclock, hmsg, firstError, ValkeyResult.Error, ValkeyMessage.Error,
      findEntry_putKey]

/-- On the reference server `DeleteCtx` returns nil and leaves no entry under
the namespaced key. -/
theorem DeleteCtx_valkey (pfx token : GoString) (st : Store) :
    (DeleteCtx (NewWithPrefix valkey pfx) token st).1 = none ∧
    findEntry (DeleteCtx (NewWithPrefix valkey pfx) token st).2.keys (pfx ++ token) = none := by
  simp only [DeleteCtx, NewWithPrefix, valkey, serve]
  cases h : st.live (pfx ++ token) <;>
    simp [ValkeyResult.Error, ValkeyMessage.Error, findEntry_removeKey]

/-! ## Replies and what the adapter makes of them -/

/-- Whatever the client, an error reply to GET makes `FindCtx` return
`nil, false, nil`: `AsBytes` hands back a nil slice with every error, so the
test `b == nil` of the source holds for an error reply as it does for a null. -/
theorem FindCtx_error_reply {σ : Type} (v : ValkeyStore σ) (token text : GoString)
    (st st1 : σ)
    (h : v.client.Do (.get (v.pfx ++ token)) st = ({ err := none, val := .err text }, st1)) :
    FindCtx v token st = (.ret (none, false, none), st1) := by
  simp [FindCtx, h, ValkeyResult.NonValkeyError, ValkeyResult.AsBytes, ValkeyMessage.AsBytes,
    ValkeyMessage.ToString, ValkeyMessage.Error, ValkeyMessage.string]

/-- Whatever the client, a first SCAN reply that `AsScanEntry` reads without
error makes `AllCtx` return the map it has so far, which is empty. -/
theorem AllCtx_well_formed_scan {σ : Type} (v : ValkeyStore σ) (fuel : Nat) (st st1 : σ)
    (resp : ValkeyResult) (entry : ScanEntry)
    (h : v.client.Do (.scan 0 (v.pfx ++ ascii "*") 100) st = (resp, st1))
    (herr : resp.Error = none) (hscan : resp.AsScanEntry = (entry, none)) :
    AllCtx v (fuel + 1) st = some (.ret (some [], none), st1) := by
  simp [AllCtx, allLoop, h, herr, hscan]

/-! ## The claims -/

/-- C1, evaluated where it fails: on a flushed reference server one session is
committed with an expiry a minute ahead and `FindCtx` finds it, yet `AllCtx`
returns the empty map with a nil error. -/
theorem AllCtx_empty_after_commit :
    (CommitCtx (New valkey) 0 sessionToken encodedData 60000000000 (emptyStore 0)).1 = none ∧
    (FindCtx (New valkey) sessionToken
      (CommitCtx (New valkey) 0 sessionToken encodedData 60000000000 (emptyStore 0)).2).1
        = .ret (some encodedData, true, none) ∧
    (AllCtx (New valkey) 1
      (CommitCtx (New valkey) 0 sessionToken encodedData 60000000000 (emptyStore 0)).2).map
        Prod.fst = some (.ret (some [], none)) := by
  decide

/-- C2, evaluated where it fails (the input of `TestExpiry`): a commit with an
expiry 100 ms ahead returns nil, and a `FindCtx` at the same instant, well
before the expiry, returns `nil, false, nil`: the time to live sent is 0
seconds and the store deletes the key. -/
theorem FindCtx_after_commit_100ms :
    untilSeconds 0 100000000 = 0 ∧
    (CommitCtx (New valkey) 0 sessionToken encodedData 100000000 (emptyStore 0)).1 = none ∧
    (FindCtx (New valkey) sessionToken
      (CommitCtx (New valkey) 0 sessionToken encodedData 100000000 (emptyStore 0)).2).1
        = .ret (none, false, none) := by
  decide

/-- C3, evaluated where it fails: the namespaced key holds a value that is not
a string, the reply to GET is the error `WRONGTYPE ...` and `Error()` of the
response reports it, yet `FindCtx` returns `nil, false, nil`. -/
theorem FindCtx_swallows_wrong_type :
    ((valkey.Do (.get (ascii "scs:session:session_token")) wrongTypeStore).1.Error
      = some (.valkeyErr wrongType)) ∧
    (FindCtx (New valkey) sessionToken wrongTypeStore).1 = .ret (none, false, none) := by
  decide

set_option maxRecDepth 8000 in
/-- C4, evaluated where it fails: a commit at instant 0 with the expiry 1.5 s
ahead (more than one whole second) returns nil, and a `FindCtx` at 1.2 s,
before the expiry, does not return the payload but `nil, false, nil`: the
time to live sent is 1 second and the key is gone with it. -/
theorem roundtrip_fails_before_expiry :
    (CommitCtx (New valkey) 0 sessionToken encodedData 1500000000 (emptyStore 0)).1 = none ∧
    (1000000000 : Int) ≤ 1500000000 - 0 ∧ (1200000000 : Int) < 1500000000 ∧
    (FindCtx (New valkey) sessionToken
      ((CommitCtx (New valkey) 0 sessionToken encodedData 1500000000
        (emptyStore 0)).2.atClock 1200000000)).1 = .ret (none, false, none) ∧
    (FindCtx (New valkey) sessionToken
      ((CommitCtx (New valkey) 0 sessionToken encodedData 1500000000
        (emptyStore 0)).2.atClock 1200000000)).1 ≠ .ret (some encodedData, true, none) := by
  decide

/-- C4, a second input: the call is at instant 0 and the expiry exactly one
whole second after it, `time.Until` reads the clock one microsecond into the
call; the time to live sent is 0 seconds and the record is deleted at once. -/
theorem roundtrip_fails_one_second_after_call :
    untilSeconds 1000 1000000000 = 0 ∧
    (CommitCtx (New valkey) 1000 sessionToken encodedData 1000000000 (emptyStore 1000)).1
      = none ∧
    (FindCtx (New valkey) sessionToken
      (CommitCtx (New valkey) 1000 sessionToken encodedData 1000000000 (emptyStore 1000)).2).1
        = .ret (none, false, none) := by
  decide

/-- C5, evaluated where it fails, on two inputs.  First: `time.Until` reads the
instant 0 for the expiry `t` = 1 s and sends 1 second, the store handles the
commit when its clock reads 5 ms, and a `FindCtx` at 1.002 s, after `t`,
returns the payload.  Second, with the store handling the commit at the very
instant `now` = 0: for `t` = 31535999999999999 ns the `float64` of
`Duration.Seconds` rounds up to 31536000 seconds, longer than `t - now`, and a
`FindCtx` when the clock reads `t` + 1 ns returns the payload. -/
theorem record_outlives_expiry :
    untilSeconds 0 1000000000 = 1 ∧
    (CommitCtx (New valkey) 0 sessionToken encodedData 1000000000 (emptyStore 5000000)).1
      = none ∧
    (1000000000 : Int) < 1002000000 ∧
    (FindCtx (New valkey) sessionToken
      ((CommitCtx (New valkey) 0 sessionToken encodedData 1000000000
        (emptyStore 5000000)).2.atClock 1002000000)).1 = .ret (some encodedData, true, none) ∧
    untilSeconds 0 31535999999999999 = 31536000 ∧
    (31535999999999999 : Int) - 0 < 31536000 * 1000000000 ∧
    (CommitCtx (New valkey) 0 sessionToken encodedData 31535999999999999 (emptyStore 0)).1
      = none ∧
    (31535999999999999 : Int) < 31536000000000000 ∧
    (FindCtx (New valkey) sessionToken
      ((CommitCtx (New valkey) 0 sessionToken encodedData 31535999999999999
        (emptyStore 0)).2.atClock 31536000000000000)).1
          = .ret (some encodedData, true, none) := by
  decide

/-- C6: `CommitCtx` surfaces every failure of its two requests.  Whatever the
client, when `DoMulti` answers the SET and the EXPIRE request with the
responses `r1` and `r2`, `CommitCtx` returns nil exactly when neither carries an
error, the error of `r1` unchanged when it has one, and otherwise the error of
`r2`. -/
theorem CommitCtx_first_error {σ : Type} (v : ValkeyStore σ) (now : Time)
    (token : GoString) (b : Bytes) (expiry : Time) (st st1 : σ) (r1 r2 : ValkeyResult)
    (h : v.client.DoMulti
        [Cmd.set (v.pfx ++ token) b, Cmd.expire (v.pfx ++ token) (untilSeconds now expiry)] st
      = ([r1, r2], st1)) :
    ((CommitCtx v now token b expiry st).1 = none ↔ r1.Error = none ∧ r2.Error = none) ∧
    (∀ e, r1.Error = some e → (CommitCtx v now token b expiry st).1 = some e) ∧
    (r1.Error = none → (CommitCtx v now token b expiry st).1 = r2.Error) := by
  have hres : (CommitCtx v now token b expiry st).1 = firstError [r1, r2] := by
    simp [CommitCtx, h]
  rw [hres]
  cases h1 : r1.Error with
  | none => cases h2 : r2.Error <;> simp [firstError, h1, h2]
  | some e => simp [firstError, h1]

/-- Instance of C6: the commit of the tests on the reference server, answered
by `OK` and `1`. -/
theorem CommitCtx_first_error_witness :
    ((CommitCtx (New valkey) 0 sessionToken encodedData 60000000000 (emptyStore 0)).1 = none ↔
      (ValkeyResult.mk none (.str (ascii "OK"))).Error = none ∧
      (ValkeyResult.mk none (.int 1)).Error = none) :=
  (CommitCtx_first_error (New valkey) 0 sessionToken encodedData 60000000000 (emptyStore 0)
    (CommitCtx (New valkey) 0 sessionToken encodedData 60000000000 (emptyStore 0)).2
    (ValkeyResult.mk none (.str (ascii "OK"))) (ValkeyResult.mk none (.int 1)) rfl).1

/-- C7: for every store state, namespace and token with no live key
`prefix + token` in the store (never written, deleted, or expired), `FindCtx`
returns `nil, false, nil` and leaves the store as it was. -/
theorem FindCtx_missing_key (pfx token : GoString) (st : Store)
    (h : st.live (pfx ++ token) = none) :
    FindCtx (NewWithPrefix valkey pfx) token st = (.ret (none, false, none), st) := by
  rw [FindCtx_valkey, h]

/-- Instance of C7: a lookup on the flushed store. -/
theorem FindCtx_missing_key_witness :
    FindCtx (NewWithPrefix valkey (ascii "scs:session:")) sessionToken (emptyStore 0)
      = (.ret (none, false, none), emptyStore 0) :=
  FindCtx_missing_key (ascii "scs:session:") sessionToken (emptyStore 0) (by decide)

/-- C8: for every namespace, token, payload, expiry and store, with the clock
moving freely between the calls: after `CommitCtx`, `DeleteCtx` of the token
returns nil and a following `FindCtx` returns `nil, false, nil`; and `DeleteCtx`
returns nil on every store, so also on one without the namespaced key. -/
theorem FindCtx_after_delete (pfx token : GoString) (b : Bytes) (now expiry c1 c2 : Time)
    (st st3 : Store) :
    (DeleteCtx (NewWithPrefix valkey pfx) token
      ((CommitCtx (NewWithPrefix valkey pfx) now token b expiry st).2.atClock c1)).1 = none ∧
    (FindCtx (NewWithPrefix valkey pfx) token
      ((DeleteCtx (NewWithPrefix valkey pfx) token
        ((CommitCtx (NewWithPrefix valkey pfx) now token b expiry st).2.atClock c1)).2.atClock
          c2)).1 = .ret (none, false, none) ∧
    (DeleteCtx (NewWithPrefix valkey pfx) token st3).1 = none := by
  refine ⟨(DeleteCtx_valkey pfx token _).1, ?_, (DeleteCtx_valkey pfx token st3).1⟩
  have hgone := (DeleteCtx_valkey pfx token
    ((CommitCtx (NewWithPrefix valkey pfx) now token b expiry st).2.atClock c1)).2
  rw [FindCtx_valkey]
  simp only [Store.live, Store.atClock] at hgone ⊢
  rw [hgone]

/-- C9: the variants without a context fail on every input.  For every
adapter, token, payload, expiry and state behind the client, `Find`, `Commit`
and `Delete` panic with `missing context arg` and the state after the call is
the state before it. -/
theorem context_free_variants_panic {σ : Type} (v : ValkeyStore σ) (token : GoString)
    (b : Bytes) (expiry : Time) (st : σ) :
    Find v token st = (.panic "missing context arg", st) ∧
    Commit v token b expiry st = (.panic "missing context arg", st) ∧
    Delete v token st = (.panic "missing context arg", st) :=
  ⟨rfl, rfl, rfl⟩

/-- C10: key namespacing of lookup.  For every namespace, token and byte string
`p`, when the store holds the live string `p` under `prefix + token`, however
it came there, `FindCtx` of an adapter built with that namespace returns
`p, true, nil`; and an adapter built with `New` has the namespace
`scs:session:`, whatever the client. -/
theorem FindCtx_namespaced_key (pfx token : GoString) (p : Bytes) (st : Store)
    (h : (st.live (pfx ++ token)).map Entry.value = some (.string p)) :
    FindCtx (NewWithPrefix valkey pfx) token st = (.ret (some p, true, none), st) ∧
    (NewWithPrefix valkey pfx).pfx = pfx ∧
    (∀ (τ : Type) (client : Client τ), (New client).pfx = ascii "scs:session:") ∧
    ascii "scs:session:" = [115, 99, 115, 58, 115, 101, 115, 115, 105, 111, 110, 58] := by
  refine ⟨?_, rfl, fun _ _ => rfl, by decide⟩
  rw [FindCtx_valkey]
  cases hl : st.live (pfx ++ token) with
  | none => simp [hl] at h
  | some e =>
    have hv : e.value = .string p := by simpa [hl] using h
    simp [hv]

/-- Instance of C10: the scenario of `TestFind`. -/
theorem FindCtx_namespaced_key_witness :
    FindCtx (New valkey) sessionToken testFindStore
      = (.ret (some encodedData, true, none), testFindStore) :=
  (FindCtx_namespaced_key (ascii "scs:session:") sessionToken encodedData testFindStore
    (by decide)).1

end Valkeystore
